import Mathlib

/-!
Verification of the Confluence ingestion subsystem: OAuth2 token handling
(`confluence_oauth.py`), the Confluence API client (`confluence_client.py`),
the page processor (`confluence_processor.py`) and the ingestion UI helpers
(`01_Ingest_Data.py`).

External collaborators (the Confluence HTTP API, the Azure blob storage
client, Python's stdlib `html.parser.HTMLParser`, and the backend trigger
endpoints) are modelled as oracle functions supplied in an environment
record; the repository's own control flow is translated directly.  Time is
modelled as an integer count of seconds (UTC); Python exceptions become
`Except String`.
-/

namespace Rodeo

/-! ## Token data and expiry (`confluence_oauth.py`) -/

/-- A token record as produced by `exchange_code_for_token` /
`refresh_access_token`: a Python dict whose relevant keys may be absent.
`obtained_at` is the parsed UTC timestamp (seconds). -/
structure TokenData where
  access_token : Option String := none
  refresh_token : Option String := none
  expires_in : Option Int := none
  obtained_at : Option Int := none
  deriving Repr, DecidableEq

/-- `ConfluenceOAuth2.is_token_expired`: true if `obtained_at` or
`expires_in` is absent; otherwise true when
`now >= obtained_at + expires_in - 5 minutes`. -/
def is_token_expired (now : Int) (t : TokenData) : Bool :=
  match t.obtained_at, t.expires_in with
  | some o, some e => decide (now ≥ o + e - 300)
  | _, _ => true

/-! ## Token store (`TokenManager`) -/

/-- The `TokenManager.tokens` dict, as a map from key to record. -/
def TokenManager := String → Option TokenData

/-- `TokenManager.store_token`: unconditional overwrite. -/
def store_token (m : TokenManager) (key : String) (t : TokenData) : TokenManager :=
  fun k => if k = key then some t else m k

/-- `TokenManager.get_token`. -/
def get_token (m : TokenManager) (key : String) : Option TokenData :=
  m key

/-- `TokenManager.get_valid_token`.  The refresh callback is optional and
may fail (a Python exception is `Except.error`); the function returns the
possibly-updated store alongside the result. -/
def get_valid_token (now : Int) (m : TokenManager) (key : String)
    (refresh_callback : Option (String → Except String TokenData)) :
    Option String × TokenManager :=
  match get_token m key with
  | none => (none, m)
  | some token_data =>
    if is_token_expired now token_data then
      match token_data.refresh_token, refresh_callback with
      | some rt, some cb =>
        match cb rt with
        | .ok new_token_data =>
            (new_token_data.access_token, store_token m key new_token_data)
        | .error _ => (none, m)
      | _, _ => (none, m)
    else (token_data.access_token, m)

/-! ## Confluence client construction (`confluence_client.py`) -/

/-- Python truthiness of an optional string (`None` and `""` are falsy). -/
def pyTruthy : Option String → Bool
  | none => false
  | some s => !s.isEmpty

/-- The constructed client: base URL with trailing slashes stripped, the
auth mode, and the credentials installed in the session headers. -/
structure ConfluenceClient where
  base_url : String
  auth_type : String
  bearer_token : Option String
  basic_credentials : Option (String × String)
  deriving Repr, DecidableEq

/-- The `ValueError` message raised by `ConfluenceClient.__init__`. -/
def invalid_auth_msg (auth_type : String) : String :=
  "Invalid auth configuration for auth_type=" ++ auth_type ++
    ": OAuth2 requires access_token; Basic requires email and api_token"

/-- `ConfluenceClient.__init__`: succeeds with installed headers iff the
credential shape matches the mode (`oauth2` needs a truthy access token,
`basic` needs truthy email and api token); otherwise raises `ValueError`.
No network request is made. -/
def confluence_client_init (base_url : String)
    (email api_token access_token : Option String) (auth_type : String) :
    Except String ConfluenceClient :=
  let stripped := base_url.dropRightWhile (· = '/')
  if auth_type = "oauth2" && pyTruthy access_token then
    .ok ⟨stripped, auth_type, access_token, none⟩
  else if auth_type = "basic" && pyTruthy email && pyTruthy api_token then
    .ok ⟨stripped, auth_type, none, some (email.getD "", api_token.getD "")⟩
  else
    .error (invalid_auth_msg auth_type)

/-! ## HTML to text (`html_to_text`) -/

/-- One event emitted by Python's stdlib `HTMLParser` while feeding the
document; `MLStripper.handle_data` only reacts to data events, the base
class ignores the rest. -/
inductive HtmlEvent where
  | data (s : String)
  | other
  deriving Repr, DecidableEq

/-- `MLStripper`: `handle_data` appends every data segment to `self.text`. -/
def mlstripper_text (events : List HtmlEvent) : List String :=
  events.filterMap fun e =>
    match e with
    | .data s => some s
    | .other => none

/-- `MLStripper.get_data`: joins collected segments with single spaces. -/
def get_data (texts : List String) : String :=
  String.intercalate " " texts

/-- `html_to_text`: runs the stdlib HTML event stream (the `tokenize`
oracle models `HTMLParser.feed`; `Except.error` models it raising) over an
`MLStripper` and joins the data segments; on any exception it returns the
original input unchanged. -/
def html_to_text (tokenize : String → Except String (List HtmlEvent))
    (html_content : String) : String :=
  match tokenize html_content with
  | .ok events => get_data (mlstripper_text events)
  | .error _ => html_content

/-! ## Page processor (`confluence_processor.py`) -/

/-- A page reference as returned by `get_child_pages`. -/
structure PageRef where
  id : String
  title : String
  url : String
  deriving Repr, DecidableEq

/-- A page payload as returned by `get_page_content` after the processor's
`dict.get` accesses: absent keys become `none` and take the processor's
defaults. -/
structure PageData where
  title : Option String := none
  url : Option String := none
  content : Option String := none
  deriving Repr, DecidableEq

/-- A space reference as returned by `get_spaces`. -/
structure SpaceRef where
  key : Option String := none
  name : Option String := none
  id : Option String := none
  deriving Repr, DecidableEq

/-- The external collaborators of the processor: the Confluence HTTP API
behind the constructed client, the Azure blob storage client, and the
stdlib HTML parser.  Each `Except.error` models a raised exception. -/
structure ConfEnv where
  verifyAuth : Bool
  getSpaces : Nat → Except String (List SpaceRef)
  getChildPages : String → Except String (List PageRef)
  getPageContent : String → Except String PageData
  blobInit : Except String Unit
  uploadFile : String → String → List (String × String) → Except String Unit
  tokenize : String → Except String (List HtmlEvent)

/-- The body of the per-page loop in `process_confluence_pages`: fetch the
content, convert the HTML, compose the document, sanitize the filename and
upload; returns the title on success. -/
def process_one_page (env : ConfEnv) (page_id : String) : Except String String :=
  match env.getPageContent page_id with
  | .error e => .error e
  | .ok page_content =>
    let title := page_content.title.getD ("confluence-page-" ++ page_id)
    let url := page_content.url.getD ""
    let html_content := page_content.content.getD ""
    let text_content := html_to_text env.tokenize html_content
    let file_content :=
      "# " ++ title ++ "\n\nSource: " ++ url ++ "\n\n" ++ text_content
    let safe_filename :=
      (("confluence_" ++ page_id ++ "_" ++ title.take 50 ++ ".txt").replace
        "/" "_").replace "\\" "_"
    let metadata :=
      [("title", title), ("source", "confluence"), ("page_id", page_id),
        ("url", url)]
    match env.uploadFile file_content safe_filename metadata with
    | .error e => .error e
    | .ok _ => .ok title

/-- Step 3 of `process_confluence_pages`: each input id, followed (when
`include_children`) by its children's ids; a failing child fetch is logged
and skipped, leaving the parent alone in place. -/
def collect_page_ids (env : ConfEnv) (page_ids : List String)
    (include_children : Bool) : List String :=
  page_ids.flatMap fun page_id =>
    page_id ::
      (if include_children then
        match env.getChildPages page_id with
        | .ok children => children.map PageRef.id
        | .error _ => []
      else [])

/-- The per-page loop of `process_confluence_pages`: each failure is caught
and appended to the error list, each success appends its title, in working
set order. -/
def process_pages_loop (env : ConfEnv) :
    List String → List String × List (String × String)
  | [] => ([], [])
  | page_id :: rest =>
    let acc := process_pages_loop env rest
    match process_one_page env page_id with
    | .ok title => (title :: acc.1, acc.2)
    | .error e => (acc.1, (page_id, e) :: acc.2)

/-- The auth-parameter pre-checks of `process_confluence_pages` followed by
client construction: `ValueError` on a missing access token (oauth2) or
missing email/api token (any other mode, treated as basic). -/
def process_build_client (base_url : String) (auth_type : String)
    (email api_token access_token : Option String) :
    Except String ConfluenceClient :=
  if auth_type = "oauth2" then
    if !pyTruthy access_token then
      .error "access_token is required for OAuth2 authentication"
    else confluence_client_init base_url none none access_token "oauth2"
  else
    if !(pyTruthy email && pyTruthy api_token) then
      .error "email and api_token are required for basic authentication"
    else confluence_client_init base_url email api_token none "basic"

/-- The body of `process_confluence_pages` after client construction:
authentication verification, blob client construction, child expansion and
the isolated per-page loop. -/
def process_core (env : ConfEnv) (page_ids : List String)
    (include_children : Bool) :
    Except String (List String × List (String × String)) :=
  if !env.verifyAuth then
    .error "Failed to authenticate with Confluence"
  else
    match env.blobInit with
    | .error e => .error e
    | .ok _ =>
      .ok (process_pages_loop env (collect_page_ids env page_ids include_children))

/-- `process_confluence_pages`: auth-parameter checks and client
construction, then the core pipeline.  A raised exception anywhere before
the per-page loop propagates (the outer handler logs and re-raises, so no
partial result is returned). -/
def process_confluence_pages (env : ConfEnv) (base_url : String)
    (page_ids : List String) (include_children : Bool) (auth_type : String)
    (email api_token access_token : Option String) :
    Except String (List String × List (String × String)) :=
  match process_build_client base_url auth_type email api_token access_token with
  | .error e => .error e
  | .ok _ => process_core env page_ids include_children

/-- The auth-parameter pre-checks of `validate_confluence_credentials`
followed by client construction, with that function's (shorter) messages; a
construction `ValueError` is caught as `Invalid input: ...` (unreachable
after the pre-checks, kept for fidelity). -/
def validate_build_client (base_url : String) (auth_type : String)
    (email api_token access_token : Option String) :
    Except String ConfluenceClient :=
  if auth_type = "oauth2" then
    if !pyTruthy access_token then
      .error "access_token is required for OAuth2"
    else
      (confluence_client_init base_url none none access_token "oauth2").mapError
        ("Invalid input: " ++ ·)
  else
    if !(pyTruthy email && pyTruthy api_token) then
      .error "email and api_token are required for basic auth"
    else
      (confluence_client_init base_url email api_token none "basic").mapError
        ("Invalid input: " ++ ·)

/-- The body of `validate_confluence_credentials` after construction:
authentication verification then a one-space probe. -/
def validate_core (env : ConfEnv) : Bool × String :=
  if !env.verifyAuth then
    (false, "Failed to authenticate with provided credentials")
  else
    match env.getSpaces 1 with
    | .error e => (false, "Error validating credentials: " ++ e)
    | .ok [] => (false, "No spaces found or user has no access to any spaces")
    | .ok (_ :: _) => (true, "Authentication successful")

/-- `validate_confluence_credentials`: every failure (parameter check,
construction, verification, space probe) is converted to
`(false, message)`, never raised. -/
def validate_confluence_credentials (env : ConfEnv) (base_url : String)
    (email api_token access_token : Option String) (auth_type : String) :
    Bool × String :=
  match validate_build_client base_url auth_type email api_token access_token with
  | .error e => (false, e)
  | .ok _ => validate_core env

/-! ## OAuth callback handling (`01_Ingest_Data.py`, `handle_oauth2_auth`) -/

/-- Outcome of the callback phase of `handle_oauth2_auth`. -/
inductive OAuthCallbackResult where
  | stateMismatch
  | success (t : TokenData)
  | exchangeFailed (msg : String)
  deriving Repr, DecidableEq

/-- The callback phase of `handle_oauth2_auth`: the returned `state` query
parameter is compared with the state stored in the session at
authorization-URL generation (`none` when never stored); on mismatch the
flow stops with the state-mismatch error, otherwise the code is exchanged
via the (oracle) `exchange_code_for_token`. -/
def handle_oauth_callback (auth_code returned_state : String)
    (stored_state : Option String)
    (exchange : String → Except String TokenData) : OAuthCallbackResult :=
  if stored_state ≠ some returned_state then
    .stateMismatch
  else
    match exchange auth_code with
    | .ok token_data => .success token_data
    | .error e => .exchangeFailed e

/-! ## URL embeddings (`01_Ingest_Data.py`, `add_url_embeddings`) -/

/-- Python `str.isspace` on the ASCII whitespace characters stripped by
`str.strip()`. -/
def py_isspace (c : Char) : Bool :=
  c = ' ' || c = '\t' || c = '\n' || c = '\r' ||
    c = Char.ofNat 11 || c = Char.ofNat 12

/-- Python truthiness of `url.strip()`: true iff some character survives
the strip, i.e. the line is not blank. -/
def py_strip_truthy (s : String) : Bool :=
  s.toList.any fun c => !py_isspace c

/-- The posting loop of `add_url_embeddings`: posts every line in order
(blank or not) until the first non-OK response; returns the overall result
and the list of lines actually posted. -/
def post_urls (post : String → Bool) : List String → Bool × List String
  | [] => (true, [])
  | url :: rest =>
    if post url then
      let acc := post_urls post rest
      (acc.1, url :: acc.2)
    else (false, [url])

/-- `add_url_embeddings`: when every line is blank after stripping, reports
an error and returns false with no request made; otherwise runs the posting
loop over the whole input list. -/
def add_url_embeddings (post : String → Bool) (urls : List String) :
    Bool × List String :=
  if urls.any py_strip_truthy then post_urls post urls
  else (false, [])

/-! ## Auxiliary predicates and concrete environments -/

/-- The processor/validator auth-parameter pre-checks pass: oauth2 with a
truthy access token, or any other mode (treated as basic) with truthy email
and api token. -/
abbrev auth_params_ok (auth_type : String)
    (email api_token access_token : Option String) : Prop :=
  (auth_type = "oauth2" ∧ pyTruthy access_token = true) ∨
    (auth_type ≠ "oauth2" ∧ pyTruthy email = true ∧ pyTruthy api_token = true)

/-- A concrete three-page environment in which only page `"2"`'s content
fetch fails. -/
def envThreePages : ConfEnv where
  verifyAuth := true
  getSpaces := fun _ => .ok [⟨some "SP", some "Demo Space", some "99"⟩]
  getChildPages := fun _ => .ok []
  getPageContent := fun pid =>
    if pid = "2" then .error "boom"
    else if pid = "1" then .ok ⟨some "Title One", some "/x/1", some "<p>One</p>"⟩
    else .ok ⟨some "Title Three", some "/x/3", some "<p>Three</p>"⟩
  blobInit := .ok ()
  uploadFile := fun _ _ _ => .ok ()
  tokenize := fun s => .ok [.data s]

/-- A concrete environment whose authentication verification fails. -/
def envAuthFail : ConfEnv :=
  { envThreePages with verifyAuth := false }

/-- A concrete environment in which fetching the children of `"p1"` raises
while its own content fetch and upload succeed. -/
def envChildFail : ConfEnv where
  verifyAuth := true
  getSpaces := fun _ => .ok [⟨some "SP", some "Demo Space", some "99"⟩]
  getChildPages := fun pid =>
    if pid = "p1" then .error "children unavailable" else .ok []
  getPageContent := fun pid =>
    .ok ⟨some ("Page " ++ pid), some ("/x/" ++ pid), some "<p>hi</p>"⟩
  blobInit := .ok ()
  uploadFile := fun _ _ _ => .ok ()
  tokenize := fun s => .ok [.data s]

/-- A concrete environment in which authentication succeeds but no space is
visible. -/
def envNoSpaces : ConfEnv :=
  { envThreePages with getSpaces := fun _ => .ok [] }

/-! ## Shared lemmas -/

/-- The per-page loop both accumulates successes and errors as order-preserving
projections of the working set. -/
theorem process_pages_loop_eq (env : ConfEnv) (ids : List String) :
    process_pages_loop env ids =
      (ids.filterMap fun p => (process_one_page env p).toOption,
        ids.filterMap fun p =>
          match process_one_page env p with
          | .ok _ => none
          | .error e => some (p, e)) := by
  induction ids with
  | nil => rfl
  | cons p rest ih =>
    simp only [process_pages_loop, ih, List.filterMap_cons]
    cases h : process_one_page env p <;> simp [Except.toOption, h]

/-- When the auth-parameter pre-checks pass, processing reduces to the core
pipeline. -/
theorem process_client_ok (env : ConfEnv) (base_url : String)
    (page_ids : List String) (include_children : Bool) (auth_type : String)
    (email api_token access_token : Option String)
    (h : auth_params_ok auth_type email api_token access_token) :
    process_confluence_pages env base_url page_ids include_children auth_type
        email api_token access_token =
      process_core env page_ids include_children := by
  rcases h with ⟨h1, h2⟩ | ⟨h1, h2, h3⟩
  · simp [process_confluence_pages, process_build_client, confluence_client_init,
      h1, h2]
  · simp [process_confluence_pages, process_build_client, confluence_client_init,
      h1, h2, h3]

/-- When the auth-parameter pre-checks pass, validation reduces to the core
probe. -/
theorem validate_client_ok (env : ConfEnv) (base_url : String)
    (email api_token access_token : Option String) (auth_type : String)
    (h : auth_params_ok auth_type email api_token access_token) :
    validate_confluence_credentials env base_url email api_token access_token
        auth_type =
      validate_core env := by
  rcases h with ⟨h1, h2⟩ | ⟨h1, h2, h3⟩
  · simp [validate_confluence_credentials, validate_build_client,
      confluence_client_init, h1, h2, Except.mapError]
  · simp [validate_confluence_credentials, validate_build_client,
      confluence_client_init, h1, h2, h3, Except.mapError]

/-! ## Claim theorems -/

/-- C1: `is_token_expired` returns true for every record missing
`obtained_at` or `expires_in`; with both present it returns true exactly
when the current UTC time is at least `obtained_at + expires_in - 300`
seconds (five-minute margin, boundary exact). -/
theorem is_token_expired_spec :
    (∀ (now : Int) (t : TokenData),
      t.obtained_at = none ∨ t.expires_in = none →
        is_token_expired now t = true) ∧
    (∀ (now o e : Int) (t : TokenData),
      t.obtained_at = some o → t.expires_in = some e →
        is_token_expired now t = decide (now ≥ o + e - 300)) := by
  constructor
  · intro now t h
    obtain ⟨a, r, ei, oa⟩ := t
    rcases h with h | h
    · simp only at h
      subst h
      cases ei <;> rfl
    · simp only at h
      subst h
      cases oa <;> rfl
  · intro now o e t h1 h2
    obtain ⟨a, r, ei, oa⟩ := t
    simp only at h1 h2
    subst h1; subst h2
    rfl

/-- C1 witness: at exactly 300 seconds remaining the token counts as
expired; at 301 seconds remaining it does not. -/
theorem is_token_expired_spec_witness :
    is_token_expired 700 ⟨none, none, some 1000, some 0⟩ = true ∧
    is_token_expired 699 ⟨none, none, some 1000, some 0⟩ = false := by
  have h1 := is_token_expired_spec.2 700 0 1000 ⟨none, none, some 1000, some 0⟩ rfl rfl
  have h2 := is_token_expired_spec.2 699 0 1000 ⟨none, none, some 1000, some 0⟩ rfl rfl
  rw [h1, h2]
  exact ⟨by decide, by decide⟩

/-- C2: `get_valid_token` returns the stored access token and leaves the
store unchanged when the record is fresh; when expired with a refresh token
and a callback, it stores the callback's result and returns its access
token; in every other case (no record, no refresh token, no callback, or a
callback exception — which is not propagated) it returns `none` with the
store unchanged. -/
theorem get_valid_token_spec :
    ∀ (now : Int) (m : TokenManager) (key : String)
      (cb : Option (String → Except String TokenData)),
      (∀ td, get_token m key = some td → is_token_expired now td = false →
        get_valid_token now m key cb = (td.access_token, m)) ∧
      (∀ td rt f nt, get_token m key = some td →
        is_token_expired now td = true → td.refresh_token = some rt →
        cb = some f → f rt = .ok nt →
        get_valid_token now m key cb = (nt.access_token, store_token m key nt) ∧
          store_token m key nt key = some nt) ∧
      (get_token m key = none → get_valid_token now m key cb = (none, m)) ∧
      (∀ td, get_token m key = some td → is_token_expired now td = true →
        td.refresh_token = none → get_valid_token now m key cb = (none, m)) ∧
      (∀ td, get_token m key = some td → is_token_expired now td = true →
        cb = none → get_valid_token now m key cb = (none, m)) ∧
      (∀ td rt f e, get_token m key = some td →
        is_token_expired now td = true → td.refresh_token = some rt →
        cb = some f → f rt = .error e → get_valid_token now m key cb = (none, m)) := by
  intro now m key cb
  refine ⟨?_, ?_, ?_, ?_, ?_, ?_⟩
  · intro td hget hfresh
    simp [get_valid_token, hget, hfresh]
  · intro td rt f nt hget hexp hrt hcb hf
    subst hcb
    refine ⟨?_, ?_⟩
    · simp [get_valid_token, hget, hexp, hrt, hf]
    · simp [store_token]
  · intro hget
    simp [get_valid_token, hget]
  · intro td hget hexp hrt
    simp [get_valid_token, hget, hexp, hrt]
  · intro td hget hexp hcb
    subst hcb
    simp [get_valid_token, hget, hexp]
  · intro td rt f e hget hexp hrt hcb hf
    subst hcb
    simp [get_valid_token, hget, hexp, hrt, hf]

/-- C2 witness: an expired record with a refresh token and a succeeding
callback is replaced in the store and the new access token is returned. -/
theorem get_valid_token_spec_witness :
    get_valid_token 10000
        (store_token (fun _ => none) "k" ⟨some "old", some "r", some 1000, some 0⟩)
        "k" (some fun _ => .ok ⟨some "new", some "r2", some 3600, some 10000⟩) =
      (some "new",
        store_token
          (store_token (fun _ => none) "k" ⟨some "old", some "r", some 1000, some 0⟩)
          "k" ⟨some "new", some "r2", some 3600, some 10000⟩) := by
  have h :=
    ((get_valid_token_spec 10000
        (store_token (fun _ => none) "k" ⟨some "old", some "r", some 1000, some 0⟩)
        "k" (some fun _ => .ok ⟨some "new", some "r2", some 3600, some 10000⟩)).2.1
      ⟨some "old", some "r", some 1000, some 0⟩ "r"
      (fun _ => .ok ⟨some "new", some "r2", some 3600, some 10000⟩)
      ⟨some "new", some "r2", some 3600, some 10000⟩ rfl (by decide) rfl rfl rfl).1
  exact h

/-- C9: `html_to_text` is total; when the stdlib parser succeeds it returns
the data segments joined by single spaces, and when parsing raises it
returns the original input unchanged. -/
theorem html_to_text_spec :
    ∀ (tokenize : String → Except String (List HtmlEvent)) (html : String),
      (∀ events, tokenize html = .ok events →
        html_to_text tokenize html =
          String.intercalate " " (events.filterMap fun e =>
            match e with
            | .data s => some s
            | .other => none)) ∧
      (∀ e, tokenize html = .error e → html_to_text tokenize html = html) := by
  intro tokenize html
  constructor
  · intro events h
    simp [html_to_text, h, get_data, mlstripper_text]
  · intro e h
    simp [html_to_text, h]

/-- C9 witness: a parsed document joins its data segments with spaces; a
parser exception returns the input unchanged. -/
theorem html_to_text_spec_witness :
    html_to_text (fun _ => .ok [.data "Hello", .other, .data "world"])
        "<p>Hello<b>world</b></p>" = "Hello world" ∧
    html_to_text (fun _ => .error "boom") "<broken" = "<broken" := by
  constructor
  · have h :=
      (html_to_text_spec (fun _ => .ok [.data "Hello", .other, .data "world"])
        "<p>Hello<b>world</b></p>").1 [.data "Hello", .other, .data "world"] rfl
    rw [h]
    rfl
  · exact (html_to_text_spec (fun _ => .error "boom") "<broken").2 "boom" rfl

/-- C3: once authentication verification (and blob client construction)
has succeeded, the batch result is exactly the order-preserving split of
the working set into per-page successes (titles) and per-page error pairs;
a failing page never aborts the remaining ones. -/
theorem process_pages_isolation :
    ∀ (env : ConfEnv) (base_url : String) (page_ids : List String)
      (include_children : Bool) (auth_type : String)
      (email api_token access_token : Option String),
      auth_params_ok auth_type email api_token access_token →
      env.verifyAuth = true → env.blobInit = .ok () →
      process_confluence_pages env base_url page_ids include_children
          auth_type email api_token access_token =
        .ok
          ((collect_page_ids env page_ids include_children).filterMap
              fun p => (process_one_page env p).toOption,
            (collect_page_ids env page_ids include_children).filterMap
              fun p =>
                match process_one_page env p with
                | .ok _ => none
                | .error e => some (p, e)) := by
  intro env b ids incl aty em tok acc hauth hv hb
  rw [process_client_ok env b ids incl aty em tok acc hauth]
  simp [process_core, hv, hb, process_pages_loop_eq]

/-- C3 witness: three page ids where only id `"2"`'s content fetch fails
give the two other titles in input order and exactly one error pair. -/
theorem process_pages_isolation_witness :
    process_confluence_pages envThreePages "https://x.atlassian.net"
        ["1", "2", "3"] false "basic" (some "a@b.c") (some "tok") none =
      .ok (["Title One", "Title Three"], [("2", "boom")]) := by
  have h := process_pages_isolation envThreePages "https://x.atlassian.net"
    ["1", "2", "3"] false "basic" (some "a@b.c") (some "tok") none
    (Or.inr ⟨by decide, rfl, rfl⟩) rfl rfl
  rw [h]
  rfl

/-- C4: a failed authentication verification aborts the whole batch with
the authentication-failure error before any page is fetched or uploaded
(the conclusion is a fixed error for arbitrary page/upload oracles, so no
per-page effect can occur and no partial result is returned); a failed
parameter check / client construction likewise propagates its error. -/
theorem process_precondition_abort :
    ∀ (env : ConfEnv) (base_url : String) (page_ids : List String)
      (include_children : Bool) (auth_type : String)
      (email api_token access_token : Option String),
      (auth_params_ok auth_type email api_token access_token →
        env.verifyAuth = false →
        process_confluence_pages env base_url page_ids include_children
            auth_type email api_token access_token =
          .error "Failed to authenticate with Confluence") ∧
      (auth_type = "oauth2" → pyTruthy access_token = false →
        process_confluence_pages env base_url page_ids include_children
            auth_type email api_token access_token =
          .error "access_token is required for OAuth2 authentication") ∧
      (auth_type ≠ "oauth2" →
        (pyTruthy email = false ∨ pyTruthy api_token = false) →
        process_confluence_pages env base_url page_ids include_children
            auth_type email api_token access_token =
          .error "email and api_token are required for basic authentication") := by
  intro env b ids incl aty em tok acc
  refine ⟨?_, ?_, ?_⟩
  · intro hauth hv
    rw [process_client_ok env b ids incl aty em tok acc hauth]
    simp [process_core, hv]
  · intro h1 h2
    simp [process_confluence_pages, process_build_client, h1, h2]
  · intro h1 h2
    rcases h2 with h2 | h2 <;>
      simp [process_confluence_pages, process_build_client, h1, h2]

/-- C4 witness: failed verification and both parameter-check failures on
concrete inputs. -/
theorem process_precondition_abort_witness :
    process_confluence_pages envAuthFail "https://x.atlassian.net" ["1"]
        false "basic" (some "a@b.c") (some "tok") none =
      .error "Failed to authenticate with Confluence" ∧
    process_confluence_pages envThreePages "https://x.atlassian.net" ["1"]
        false "oauth2" none none none =
      .error "access_token is required for OAuth2 authentication" ∧
    process_confluence_pages envThreePages "https://x.atlassian.net" ["1"]
        false "basic" none (some "tok") none =
      .error "email and api_token are required for basic authentication" := by
  refine ⟨?_, ?_, ?_⟩
  · exact (process_precondition_abort envAuthFail "https://x.atlassian.net"
      ["1"] false "basic" (some "a@b.c") (some "tok") none).1
      (Or.inr ⟨by decide, rfl, rfl⟩) rfl
  · exact (process_precondition_abort envThreePages "https://x.atlassian.net"
      ["1"] false "oauth2" none none none).2.1 rfl rfl
  · exact (process_precondition_abort envThreePages "https://x.atlassian.net"
      ["1"] false "basic" none (some "tok") none).2.2 (by decide) (Or.inl rfl)

/-- C5: with `include_children = true`, a failing child fetch for one
parent contributes no children (the parent stands alone in the working
set), the parent id is still in the working set and is processed, and no
error pair for the parent arises from the child-fetch failure (its own
processing succeeding, no error pair for it exists at all). -/
theorem child_fetch_failure_isolated :
    ∀ (env : ConfEnv) (base_url : String) (page_ids : List String)
      (auth_type : String) (email api_token access_token : Option String)
      (pid msg title : String),
      auth_params_ok auth_type email api_token access_token →
      env.verifyAuth = true → env.blobInit = .ok () →
      pid ∈ page_ids →
      env.getChildPages pid = .error msg →
      process_one_page env pid = .ok title →
      collect_page_ids env [pid] true = [pid] ∧
      pid ∈ collect_page_ids env page_ids true ∧
      ∃ S E,
        process_confluence_pages env base_url page_ids true auth_type email
            api_token access_token = .ok (S, E) ∧
        title ∈ S ∧ ∀ m, (pid, m) ∉ E := by
  intro env b ids aty em tok acc pid msg title hauth hv hb hmem hchild hok
  have hmem' : pid ∈ collect_page_ids env ids true :=
    List.mem_flatMap.mpr ⟨pid, hmem, List.mem_cons_self _ _⟩
  refine ⟨?_, hmem', ?_⟩
  · simp [collect_page_ids, hchild]
  · refine ⟨(collect_page_ids env ids true).filterMap
        (fun p => (process_one_page env p).toOption),
      (collect_page_ids env ids true).filterMap
        (fun p =>
          match process_one_page env p with
          | .ok _ => none
          | .error e => some (p, e)), ?_, ?_, ?_⟩
    · rw [process_client_ok env b ids true aty em tok acc hauth]
      simp [process_core, hv, hb, process_pages_loop_eq]
    · exact List.mem_filterMap.mpr ⟨pid, hmem', by rw [hok]; rfl⟩
    · intro m hm
      obtain ⟨q, hq, hfq⟩ := List.mem_filterMap.mp hm
      cases hq2 : process_one_page env q with
      | ok t => rw [hq2] at hfq; simp at hfq
      | error e =>
        rw [hq2] at hfq
        simp at hfq
        obtain ⟨hqpid, _⟩ := hfq
        rw [hqpid, hok] at hq2
        simp at hq2

/-- C5 witness: the parent `"p1"` whose child fetch raises is still
processed alone, succeeds, and has no error pair. -/
theorem child_fetch_failure_isolated_witness :
    collect_page_ids envChildFail ["p1"] true = ["p1"] ∧
    "p1" ∈ collect_page_ids envChildFail ["p1", "p2"] true ∧
    ∃ S E,
      process_confluence_pages envChildFail "https://x.atlassian.net"
          ["p1", "p2"] true "basic" (some "a@b.c") (some "tok") none =
        .ok (S, E) ∧
      "Page p1" ∈ S ∧ ∀ m, ("p1", m) ∉ E := by
  exact child_fetch_failure_isolated envChildFail "https://x.atlassian.net"
    ["p1", "p2"] "basic" (some "a@b.c") (some "tok") none
    "p1" "children unavailable" "Page p1"
    (Or.inr ⟨by decide, rfl, rfl⟩) rfl rfl (by simp) rfl rfl

/-- C6: constructing the client succeeds exactly for a matching credential
shape (oauth2 with a truthy access token, basic with truthy email and api
token); every other combination — any other mode included — raises the
invalid-auth-configuration `ValueError`.  Construction is a pure
computation over the supplied strings: no request oracle is involved. -/
theorem client_init_spec :
    ∀ (base_url : String) (email api_token access_token : Option String)
      (auth_type : String),
      ((auth_type = "oauth2" ∧ pyTruthy access_token = true) ∨
          (auth_type = "basic" ∧ pyTruthy email = true ∧
            pyTruthy api_token = true) →
        ∃ c, confluence_client_init base_url email api_token access_token
            auth_type = .ok c) ∧
      (¬((auth_type = "oauth2" ∧ pyTruthy access_token = true) ∨
          (auth_type = "basic" ∧ pyTruthy email = true ∧
            pyTruthy api_token = true)) →
        confluence_client_init base_url email api_token access_token
            auth_type = .error (invalid_auth_msg auth_type)) := by
  intro b em tok acc aty
  constructor
  · rintro (⟨h1, h2⟩ | ⟨h1, h2, h3⟩)
    · exact ⟨⟨b.dropRightWhile (· = '/'), "oauth2", acc, none⟩, by
        simp [confluence_client_init, h1, h2]⟩
    · exact ⟨⟨b.dropRightWhile (· = '/'), "basic", none,
          some (em.getD "", tok.getD "")⟩, by
        simp [confluence_client_init, h1, h2, h3]⟩
  · intro h
    simp only [confluence_client_init]
    split_ifs with hc1 hc2
    · simp only [Bool.and_eq_true, decide_eq_true_eq] at hc1
      exact absurd (Or.inl hc1) h
    · simp only [Bool.and_eq_true, decide_eq_true_eq] at hc2
      exact absurd (Or.inr ⟨hc2.1.1, hc2.1.2, hc2.2⟩) h
    · rfl

/-- C6 witness: a matching oauth2 shape constructs; an oauth2 shape without
an access token raises the invalid-auth-configuration error. -/
theorem client_init_spec_witness :
    (∃ c, confluence_client_init "https://x.atlassian.net/" none none
        (some "tkn") "oauth2" = .ok c) ∧
    confluence_client_init "https://x.atlassian.net/" none none none
        "oauth2" = .error (invalid_auth_msg "oauth2") := by
  constructor
  · exact (client_init_spec "https://x.atlassian.net/" none none (some "tkn")
      "oauth2").1 (Or.inl ⟨rfl, rfl⟩)
  · exact (client_init_spec "https://x.atlassian.net/" none none none
      "oauth2").2 (by decide)

/-- C7: credential validation answers `(true, "Authentication successful")`
exactly when the parameters construct a client, verification succeeds and
at least one space is visible; zero visible spaces, a failed verification,
a space-probe exception, or bad parameters all yield `(false, message)`
without raising. -/
theorem validate_credentials_spec :
    ∀ (env : ConfEnv) (base_url : String)
      (email api_token access_token : Option String) (auth_type : String),
      (auth_params_ok auth_type email api_token access_token →
        env.verifyAuth = true →
        (∀ s rest, env.getSpaces 1 = .ok (s :: rest) →
          validate_confluence_credentials env base_url email api_token
              access_token auth_type = (true, "Authentication successful")) ∧
        (env.getSpaces 1 = .ok [] →
          validate_confluence_credentials env base_url email api_token
              access_token auth_type =
            (false, "No spaces found or user has no access to any spaces")) ∧
        (∀ e, env.getSpaces 1 = .error e →
          validate_confluence_credentials env base_url email api_token
              access_token auth_type =
            (false, "Error validating credentials: " ++ e))) ∧
      (auth_params_ok auth_type email api_token access_token →
        env.verifyAuth = false →
        validate_confluence_credentials env base_url email api_token
            access_token auth_type =
          (false, "Failed to authenticate with provided credentials")) ∧
      (¬auth_params_ok auth_type email api_token access_token →
        (validate_confluence_credentials env base_url email api_token
            access_token auth_type).1 = false) := by
  intro env b em tok acc aty
  refine ⟨?_, ?_, ?_⟩
  · intro hauth hv
    rw [validate_client_ok env b em tok acc aty hauth]
    refine ⟨?_, ?_, ?_⟩
    · intro s rest hs
      simp [validate_core, hv, hs]
    · intro hs
      simp [validate_core, hv, hs]
    · intro e hs
      simp [validate_core, hv, hs]
  · intro hauth hv
    rw [validate_client_ok env b em tok acc aty hauth]
    simp [validate_core, hv]
  · intro h
    simp only [validate_confluence_credentials, validate_build_client]
    split_ifs with hc1 hc2 hc3
    · rfl
    · have : pyTruthy acc = true := by
        simpa using hc2
      exact absurd (Or.inl ⟨hc1, this⟩) h
    · rfl
    · have : pyTruthy em = true ∧ pyTruthy tok = true := by
        simpa using hc3
      exact absurd (Or.inr ⟨hc1, this.1, this.2⟩) h

/-- C7 witness: zero visible spaces give a failure message even though
authentication succeeds; with one visible space validation answers the
success pair; with a false verification it answers the failure pair. -/
theorem validate_credentials_spec_witness :
    validate_confluence_credentials envNoSpaces "https://x.atlassian.net"
        (some "a@b.c") (some "tok") none "basic" =
      (false, "No spaces found or user has no access to any spaces") ∧
    validate_confluence_credentials envThreePages "https://x.atlassian.net"
        (some "a@b.c") (some "tok") none "basic" =
      (true, "Authentication successful") ∧
    validate_confluence_credentials envAuthFail "https://x.atlassian.net"
        (some "a@b.c") (some "tok") none "basic" =
      (false, "Failed to authenticate with provided credentials") := by
  refine ⟨?_, ?_, ?_⟩
  · exact ((validate_credentials_spec envNoSpaces "https://x.atlassian.net"
      (some "a@b.c") (some "tok") none "basic").1
      (Or.inr ⟨by decide, rfl, rfl⟩) rfl).2.1 rfl
  · exact ((validate_credentials_spec envThreePages "https://x.atlassian.net"
      (some "a@b.c") (some "tok") none "basic").1
      (Or.inr ⟨by decide, rfl, rfl⟩) rfl).1
      ⟨some "SP", some "Demo Space", some "99"⟩ [] rfl
  · exact (validate_credentials_spec envAuthFail "https://x.atlassian.net"
      (some "a@b.c") (some "tok") none "basic").2.1
      (Or.inr ⟨by decide, rfl, rfl⟩) rfl

/-- C8: any returned state differing from the stored one stops the
callback flow with the state-mismatch outcome; the token exchange is never
invoked (the outcome is fixed for every exchange oracle and every
authorization code). -/
theorem oauth_state_mismatch :
    ∀ (auth_code returned_state s : String)
      (exchange : String → Except String TokenData),
      returned_state ≠ s →
      handle_oauth_callback auth_code returned_state (some s) exchange =
        .stateMismatch := by
  intro code ret s ex h
  unfold handle_oauth_callback
  rw [if_pos]
  intro heq
  exact h (Option.some.inj heq).symm

/-- C8 witness: a tampered state is rejected for a concrete exchange
oracle that would succeed. -/
theorem oauth_state_mismatch_witness :
    handle_oauth_callback "code1" "tampered" (some "origstate")
        (fun _ => .ok ⟨some "a", none, some 3600, some 0⟩) =
      .stateMismatch :=
  oauth_state_mismatch "code1" "tampered" "origstate"
    (fun _ => .ok ⟨some "a", none, some 3600, some 0⟩) (by decide)

/-- The posting loop posts the lines in order up to and including the first
rejected one, and reports success only when every post succeeds. -/
theorem post_urls_eq (post : String → Bool) (urls : List String) :
    post_urls post urls =
      (urls.all post, urls.take ((urls.takeWhile post).length + 1)) := by
  induction urls with
  | nil => rfl
  | cons u rest ih =>
    by_cases h : post u = true
    · simp [post_urls, h, ih, List.takeWhile_cons, List.take_succ_cons]
    · simp [post_urls, h, List.takeWhile_cons]

/-- C10: with only blank lines nothing is posted and the call reports
failure; with at least one non-blank line every line (blank ones included)
is posted in order until the first non-OK response, which stops the loop
and reports failure, and the call reports success only when every post
succeeds. -/
theorem add_url_embeddings_spec :
    ∀ (post : String → Bool) (urls : List String),
      ((∀ u ∈ urls, py_strip_truthy u = false) →
        add_url_embeddings post urls = (false, [])) ∧
      ((∃ u ∈ urls, py_strip_truthy u = true) →
        add_url_embeddings post urls =
          (urls.all post, urls.take ((urls.takeWhile post).length + 1))) := by
  intro post urls
  constructor
  · intro h
    have hany : urls.any py_strip_truthy = false := by
      simp only [List.any_eq_false]
      intro u hu
      simp [h u hu]
    simp [add_url_embeddings, hany]
  · intro h
    have hany : urls.any py_strip_truthy = true := by
      rcases h with ⟨u, hu, he⟩
      exact List.any_eq_true.mpr ⟨u, hu, he⟩
    simp [add_url_embeddings, hany, post_urls_eq]

/-- C10 witness: all-blank input posts nothing; a failing third line stops
the loop after posting the first three lines (the blank one included) and
reports failure. -/
theorem add_url_embeddings_spec_witness :
    add_url_embeddings (fun _ => true) ["", "   "] = (false, []) ∧
    add_url_embeddings (fun u => u != "bad") ["a", "", "bad", "c"] =
      (false, ["a", "", "bad"]) := by
  constructor
  · exact (add_url_embeddings_spec (fun _ => true) ["", "   "]).1 (by decide)
  · have h := (add_url_embeddings_spec (fun u => u != "bad")
      ["a", "", "bad", "c"]).2 ⟨"a", by simp, by decide⟩
    rw [h]
    rfl

end Rodeo
